import Mathlib

set_option autoImplicit false

/-!
Shallow embedding of the routing-and-invocation layer of the
`mcp-hello-world` "real models" gateway (nodejs-real variant:
`shared/types.js`, `shared/models.js`, `server/server.js`).

JavaScript semantics conventions used throughout:
- an optional value (possibly `undefined`) is an `Option`;
- `a || b` on strings/numbers falls through on JS-falsy values
  (`undefined`, `""`, `0`), embedded by the `jsOr*` helpers;
- a thrown exception is an `Except.error`;
- JS numbers used as token counts are `Nat`, temperatures are `Rat`.
-/

/-- JS truthiness of an optional string: `undefined` and `""` are falsy. -/
def jsTruthyOptStr (s : Option String) : Bool :=
  match s with
  | some v => v ≠ ""
  | none => false

/-- JS `a || b` for an optional string `a`: falls through on `undefined` and `""`. -/
def jsOrStr (a : Option String) (b : String) : String :=
  match a with
  | some v => if v = "" then b else v
  | none => b

/-- JS `a || b` for an optional number `a` (natural): falls through on `undefined` and `0`. -/
def jsOrNat (a : Option Nat) (b : Nat) : Nat :=
  match a with
  | some v => if v = 0 then b else v
  | none => b

/-- JS `a || b` for an optional number `a` (rational): falls through on `undefined` and `0`. -/
def jsOrRat (a : Option Rat) (b : Rat) : Rat :=
  match a with
  | some v => if v = 0 then b else v
  | none => b

/-- JS template interpolation of a value that may be `undefined`. -/
def jsTemplateOptStr (a : Option String) : String :=
  match a with
  | some v => v
  | none => "undefined"

/-- Whether `pre` is a prefix of `l` (character lists). -/
def listStartsWith : List Char → List Char → Bool
  | [], _ => true
  | _ :: _, [] => false
  | a :: as, b :: bs => a == b && listStartsWith as bs

/-- JS `String.prototype.includes`: substring containment. -/
def listContainsSub (sub : List Char) : List Char → Bool
  | [] => decide (sub = [])
  | c :: rest => listStartsWith sub (c :: rest) || listContainsSub sub rest

/-- JS `s.includes(sub)`. -/
def jsIncludes (s sub : String) : Bool :=
  listContainsSub sub.data s.data

/-- JS `String.prototype.toLowerCase` (restricted to ASCII, which covers
all strings this layer compares). -/
def toLowerStr (s : String) : String :=
  String.mk (s.data.map Char.toLower)

/-- JS `String.prototype.toUpperCase` (restricted to ASCII). -/
def toUpperStr (s : String) : String :=
  String.mk (s.data.map Char.toUpper)

/-!  `shared/types.js`  -/

/-- Object lookup on `MODEL_PROVIDERS = { OLLAMA: 'ollama', CLAUDE: 'claude', OPENAI: 'openai' }`. -/
def modelProvidersLookup (key : String) : Option String :=
  if key = "OLLAMA" then some "ollama"
  else if key = "CLAUDE" then some "claude"
  else if key = "OPENAI" then some "openai"
  else none

/-- Object lookup on `AVAILABLE_MODELS` (keys are the lowercase provider ids). -/
def availableModelsLookup (provider : String) : Option (List String) :=
  if provider = "ollama" then some ["llama3.2", "llama3.1", "codellama", "mistral"]
  else if provider = "claude" then some ["claude-3-5-sonnet-20241022", "claude-3-haiku-20240307"]
  else if provider = "openai" then some ["gpt-4", "gpt-4-turbo", "gpt-3.5-turbo"]
  else none

/-- Object lookup on `MODEL_ROUTING` (task type to provider id, plus a `default` key). -/
def modelRoutingLookup (taskType : String) : Option String :=
  if taskType = "creative" then some "claude"
  else if taskType = "analytical" then some "openai"
  else if taskType = "coding" then some "ollama"
  else if taskType = "general" then some "ollama"
  else if taskType = "default" then some "ollama"
  else none

/-- Result object of `validateModelRequest`. -/
structure ValidationResult where
  valid : Bool
  error : Option String := none
deriving Repr, DecidableEq

/-- `validateModelRequest(provider, model)` from `shared/types.js`.
`Except.error` models a thrown `TypeError`: when the provider is known only
up to case, `AVAILABLE_MODELS[provider]` is `undefined` and a supplied model
makes the code call `.includes` on `undefined`. -/
def validateModelRequest (provider : String) (model : Option String) : Except String ValidationResult :=
  if (modelProvidersLookup (toUpperStr provider)).isNone then
    .ok { valid := false, error := some ("Invalid provider: " ++ provider) }
  else
    match availableModelsLookup provider with
    | some availableModels =>
      if jsTruthyOptStr model && !(availableModels.contains (model.getD "")) then
        .ok { valid := false
              error := some ("Model " ++ jsTemplateOptStr model ++ " not available for provider " ++ provider) }
      else
        .ok { valid := true }
    | none =>
      if jsTruthyOptStr model then
        .error "TypeError: Cannot read properties of undefined (reading includes)"
      else
        .ok { valid := true }

/-!  `shared/models.js`  -/

/-- Process environment relevant to the model clients: whether each cloud
credential is configured (a client is initialized iff its key is present)
and the optional per-provider model overrides. -/
structure Env where
  anthropicApiKey : Bool := false
  openaiApiKey : Bool := false
  ollamaModel : Option String := none
  claudeModel : Option String := none
  openaiModel : Option String := none
deriving Repr, DecidableEq

/-- Normalized token usage object built by the adapters. -/
structure Usage where
  prompt_tokens : Nat
  completion_tokens : Nat
  total_tokens : Nat
deriving Repr, DecidableEq

/-- Result object returned by `callOllama` / `callClaude` / `callOpenAI` /
`callModel` (the `default` branch of `callModel` sets no `provider`). -/
structure InvocationResult where
  success : Bool
  content : Option String := none
  model : Option String := none
  provider : Option String := none
  usage : Option Usage := none
  error : Option String := none
  errorType : Option String := none
deriving Repr, DecidableEq

/-- Failure of a backend call: `code` is the system error code carried by
the thrown error (for example `ECONNREFUSED`), `message` its message. -/
structure NetworkError where
  code : Option String := none
  message : String
deriving Repr, DecidableEq

/-- Body sent to `POST {baseURL}/api/generate` by `callOllama`. -/
structure OllamaGenerateRequest where
  model : String
  prompt : String
  temperature : Rat
  num_predict : Nat
deriving Repr, DecidableEq

/-- Successful response body of the Ollama generate endpoint; the token
count fields may be absent. -/
structure OllamaResponse where
  response : String
  prompt_eval_count : Option Nat := none
  eval_count : Option Nat := none
deriving Repr, DecidableEq

/-- Request sent to `anthropicClient.messages.create` by `callClaude`. -/
structure AnthropicMessagesRequest where
  model : String
  max_tokens : Nat
  temperature : Rat
  prompt : String
deriving Repr, DecidableEq

/-- Successful Anthropic response: first content block text and usage. -/
structure AnthropicResponse where
  text : String
  input_tokens : Nat
  output_tokens : Nat
deriving Repr, DecidableEq

/-- Usage object of an OpenAI chat completion response. -/
structure OpenAIUsage where
  prompt_tokens : Nat
  completion_tokens : Nat
  total_tokens : Nat
deriving Repr, DecidableEq

/-- Successful response of `openaiClient.chat.completions.create`:
first choice message content and the usage object. -/
structure OpenAIResponse where
  content : String
  usage : OpenAIUsage
deriving Repr, DecidableEq

/-- Request sent to `openaiClient.chat.completions.create` by `callOpenAI`. -/
structure OpenAICompletionRequest where
  model : String
  prompt : String
  max_tokens : Nat
  temperature : Rat
deriving Repr, DecidableEq

/-- Behaviour of the three backends during one request: each network call
either yields the backend's response or fails with a network error. -/
structure Backend where
  ollamaGenerate : OllamaGenerateRequest → Except NetworkError OllamaResponse
  anthropicMessages : AnthropicMessagesRequest → Except NetworkError AnthropicResponse
  openaiCompletions : OpenAICompletionRequest → Except NetworkError OpenAIResponse
  ollamaTags : Except NetworkError (List String)

/-- Per-call options object assembled by the `chat` handler. -/
structure ChatOptions where
  temperature : Option Rat := none
  maxTokens : Option Nat := none
deriving Repr, DecidableEq

/-- `DEFAULT_CONFIGS.*.temperature` is `0.7` for all three providers. -/
def defaultTemperature : Rat := 7 / 10

/-- `DEFAULT_CONFIGS.*.maxTokens` is `1000` for all three providers. -/
def defaultMaxTokens : Nat := 1000

/-- Model name resolution in `callOllama`:
`model || process.env.OLLAMA_MODEL || DEFAULT_CONFIGS.ollama.model`. -/
def ollamaModelName (env : Env) (model : Option String) : String :=
  jsOrStr model (jsOrStr env.ollamaModel "llama3.2")

/-- Request body built by `callOllama`: per-call options override the
configured defaults through JS `||`. -/
def ollamaRequest (env : Env) (prompt : String) (model : Option String)
    (options : ChatOptions) : OllamaGenerateRequest :=
  { model := ollamaModelName env model
    prompt := prompt
    temperature := jsOrRat options.temperature defaultTemperature
    num_predict := jsOrNat options.maxTokens defaultMaxTokens }

/-- `callOllama(prompt, model, options)`: posts the generate request; on
success maps the usage counts (missing counts default to `0`, the total is
their sum); on failure classifies `ECONNREFUSED` as `MODEL_UNAVAILABLE`
and everything else as `API_ERROR`. -/
def callOllama (env : Env) (backend : Backend) (prompt : String)
    (model : Option String) (options : ChatOptions) : InvocationResult :=
  let modelName := ollamaModelName env model
  match backend.ollamaGenerate (ollamaRequest env prompt model options) with
  | .ok resp =>
    { success := true
      content := some resp.response
      model := some modelName
      provider := some "ollama"
      usage := some
        { prompt_tokens := jsOrNat resp.prompt_eval_count 0
          completion_tokens := jsOrNat resp.eval_count 0
          total_tokens := jsOrNat resp.prompt_eval_count 0 + jsOrNat resp.eval_count 0 } }
  | .error e =>
    { success := false
      error := some e.message
      errorType := some (if e.code = some "ECONNREFUSED" then "MODEL_UNAVAILABLE" else "API_ERROR")
      provider := some "ollama" }

/-- Model name resolution in `callClaude`. -/
def claudeModelName (env : Env) (model : Option String) : String :=
  jsOrStr model (jsOrStr env.claudeModel "claude-3-5-sonnet-20241022")

/-- Request built by `callClaude` for `anthropicClient.messages.create`. -/
def claudeRequest (env : Env) (prompt : String) (model : Option String)
    (options : ChatOptions) : AnthropicMessagesRequest :=
  { model := claudeModelName env model
    max_tokens := jsOrNat options.maxTokens defaultMaxTokens
    temperature := jsOrRat options.temperature defaultTemperature
    prompt := prompt }

/-- `callClaude(prompt, model, options)`: with no configured Anthropic key the
client is `null` and the call returns the missing-credential failure (tagged
with the `INVALID_REQUEST` error type); otherwise the usage total is the sum
of input and output tokens, and any thrown error becomes `API_ERROR`. -/
def callClaude (env : Env) (backend : Backend) (prompt : String)
    (model : Option String) (options : ChatOptions) : InvocationResult :=
  if !env.anthropicApiKey then
    { success := false
      error := some "Anthropic API key not configured"
      errorType := some "INVALID_REQUEST"
      provider := some "claude" }
  else
    let modelName := claudeModelName env model
    match backend.anthropicMessages (claudeRequest env prompt model options) with
    | .ok resp =>
      { success := true
        content := some resp.text
        model := some modelName
        provider := some "claude"
        usage := some
          { prompt_tokens := resp.input_tokens
            completion_tokens := resp.output_tokens
            total_tokens := resp.input_tokens + resp.output_tokens } }
    | .error e =>
      { success := false
        error := some e.message
        errorType := some "API_ERROR"
        provider := some "claude" }

/-- Model name resolution in `callOpenAI`. -/
def openaiModelName (env : Env) (model : Option String) : String :=
  jsOrStr model (jsOrStr env.openaiModel "gpt-4")

/-- Request built by `callOpenAI` for `openaiClient.chat.completions.create`. -/
def openaiRequest (env : Env) (prompt : String) (model : Option String)
    (options : ChatOptions) : OpenAICompletionRequest :=
  { model := openaiModelName env model
    prompt := prompt
    max_tokens := jsOrNat options.maxTokens defaultMaxTokens
    temperature := jsOrRat options.temperature defaultTemperature }

/-- `callOpenAI(prompt, model, options)`: with no configured OpenAI key the
client is `null` and the call returns the missing-credential failure (tagged
with the `INVALID_REQUEST` error type); on success all three usage fields —
including `total_tokens` — are copied verbatim from the backend response. -/
def callOpenAI (env : Env) (backend : Backend) (prompt : String)
    (model : Option String) (options : ChatOptions) : InvocationResult :=
  if !env.openaiApiKey then
    { success := false
      error := some "OpenAI API key not configured"
      errorType := some "INVALID_REQUEST"
      provider := some "openai" }
  else
    let modelName := openaiModelName env model
    match backend.openaiCompletions (openaiRequest env prompt model options) with
    | .ok resp =>
      { success := true
        content := some resp.content
        model := some modelName
        provider := some "openai"
        usage := some
          { prompt_tokens := resp.usage.prompt_tokens
            completion_tokens := resp.usage.completion_tokens
            total_tokens := resp.usage.total_tokens } }
    | .error e =>
      { success := false
        error := some e.message
        errorType := some "API_ERROR"
        provider := some "openai" }

/-- `callModel(provider, prompt, model, options)`: dispatches on
`provider.toLowerCase()`; an unmatched provider yields the
`INVALID_PROVIDER` failure without a `provider` field. -/
def callModel (env : Env) (backend : Backend) (provider : String) (prompt : String)
    (model : Option String) (options : ChatOptions) : InvocationResult :=
  let p := toLowerStr provider
  if p = "ollama" then callOllama env backend prompt model options
  else if p = "claude" then callClaude env backend prompt model options
  else if p = "openai" then callOpenAI env backend prompt model options
  else
    { success := false
      error := some ("Unknown provider: " ++ provider)
      errorType := some "INVALID_PROVIDER" }

/-- Result object of `getAvailableModels`. -/
structure ModelListResult where
  success : Bool
  models : Option (List String) := none
  provider : Option String := none
  error : Option String := none
deriving Repr, DecidableEq

/-- `getAvailableModels(provider)`: queries the Ollama tags endpoint for the
local backend, returns the static model lists for the cloud backends, and an
unknown-provider failure (without `provider` field) otherwise. -/
def getAvailableModels (backend : Backend) (provider : String) : ModelListResult :=
  let p := toLowerStr provider
  if p = "ollama" then
    match backend.ollamaTags with
    | .ok ms => { success := true, models := some ms, provider := some "ollama" }
    | .error e => { success := false, error := some e.message, provider := some "ollama" }
  else if p = "claude" then
    { success := true
      models := some ["claude-3-5-sonnet-20241022", "claude-3-haiku-20240307"]
      provider := some "claude" }
  else if p = "openai" then
    { success := true
      models := some ["gpt-4", "gpt-4-turbo", "gpt-3.5-turbo"]
      provider := some "openai" }
  else
    { success := false, error := some ("Unknown provider: " ++ provider) }

/-!  `server/server.js`  -/

/-- Coding keyword test of `determineTaskType` on the lowercased prompt. -/
def mentionsCoding (lowerPrompt : String) : Bool :=
  jsIncludes lowerPrompt "code" || jsIncludes lowerPrompt "program" || jsIncludes lowerPrompt "function"

/-- Creative keyword test of `determineTaskType` on the lowercased prompt. -/
def mentionsCreative (lowerPrompt : String) : Bool :=
  jsIncludes lowerPrompt "creative" || jsIncludes lowerPrompt "story" || jsIncludes lowerPrompt "poem"

/-- Analytical keyword test of `determineTaskType` on the lowercased prompt. -/
def mentionsAnalytical (lowerPrompt : String) : Bool :=
  jsIncludes lowerPrompt "analyze" || jsIncludes lowerPrompt "compare" || jsIncludes lowerPrompt "evaluate"

/-- `determineTaskType(prompt)`: case-insensitive keyword matching in fixed
priority order — coding, then creative, then analytical, else general. -/
def determineTaskType (prompt : String) : String :=
  let lowerPrompt := toLowerStr prompt
  if mentionsCoding lowerPrompt then "coding"
  else if mentionsCreative lowerPrompt then "creative"
  else if mentionsAnalytical lowerPrompt then "analytical"
  else "general"

/-- `selectModelForTask(taskType, preferredProvider = null)`: a truthy
preferred provider whose uppercased form is a `MODEL_PROVIDERS` key wins
(lowercased); otherwise `MODEL_ROUTING[taskType] || MODEL_ROUTING.default`. -/
def selectModelForTask (taskType : String) (preferredProvider : Option String := none) : String :=
  if jsTruthyOptStr preferredProvider
      && (modelProvidersLookup (toUpperStr (preferredProvider.getD ""))).isSome then
    toLowerStr (preferredProvider.getD "")
  else
    jsOrStr (modelRoutingLookup taskType) (jsOrStr (modelRoutingLookup "default") "")

/-- Arguments object of a `tools/call` request as the handler destructures it. -/
structure ChatArgs where
  prompt : Option String := none
  provider : Option String := none
  model : Option String := none
  temperature : Option Rat := none
  maxTokens : Option Nat := none
deriving Repr, DecidableEq

/-- The `model_info` object of a successful `chat` response. -/
structure ModelInfo where
  provider : Option String
  model : Option String
  task_type : String
  auto_selected : Bool
deriving Repr, DecidableEq

/-- The JSON payload of a successful `chat` response (timestamp omitted). -/
structure ChatPayload where
  response : Option String
  model_info : ModelInfo
  usage : Option Usage
deriving Repr, DecidableEq

/-- The envelope the `CallToolRequestSchema` handler returns: a successful
`chat` payload, a successful `list_models` payload, or — for any caught
error — the `{error, tool}` payload with `isError: true`. -/
inductive ToolResponse where
  | chatOk (payload : ChatPayload)
  | modelsOk (provider : Option String) (models : Option (List String))
  | errorResp (message : String) (tool : String)
deriving Repr, DecidableEq

/-- Body of the `case 'chat'` branch inside the handler's `try` block.
`Except.error` is a thrown error (to be caught by the handler's `catch`);
the second component records the provider string passed to `callModel`,
`none` when no adapter dispatch happened. -/
def chatBody (env : Env) (backend : Backend) (args : ChatArgs) :
    Except String ChatPayload × Option String :=
  if !(jsTruthyOptStr args.prompt) then
    (.error "Prompt is required", none)
  else
    let prompt := args.prompt.getD ""
    let taskType := determineTaskType prompt
    let selectedProvider := jsOrStr args.provider (selectModelForTask taskType)
    match validateModelRequest selectedProvider args.model with
    | .error e => (.error e, none)
    | .ok validation =>
      if !validation.valid then
        (.error (validation.error.getD ""), none)
      else
        let options : ChatOptions := { temperature := args.temperature, maxTokens := args.maxTokens }
        let result := callModel env backend selectedProvider prompt args.model options
        if !result.success then
          (.error (jsTemplateOptStr result.provider ++ " API error: " ++ (result.error.getD "")),
           some selectedProvider)
        else
          (.ok { response := result.content
                 model_info :=
                   { provider := result.provider
                     model := result.model
                     task_type := taskType
                     auto_selected := !(jsTruthyOptStr args.provider) }
                 usage := result.usage },
           some selectedProvider)

/-- Body of the `case 'list_models'` branch inside the handler's `try` block. -/
def listModelsBody (backend : Backend) (args : ChatArgs) :
    Except String (Option String × Option (List String)) :=
  if !(jsTruthyOptStr args.provider) then
    .error "Provider is required"
  else
    let provider := args.provider.getD ""
    let result := getAvailableModels backend provider
    if !result.success then
      .error ("Failed to get models for " ++ provider ++ ": " ++ (result.error.getD ""))
    else
      .ok (result.provider, result.models)

/-- The `CallToolRequestSchema` handler: runs the tool body and converts any
thrown error into the `{error, tool}` envelope (the `catch` block), so the
caller always receives a `ToolResponse`. -/
def handleToolCall (env : Env) (backend : Backend) (name : String) (args : ChatArgs) : ToolResponse :=
  if name = "chat" then
    match (chatBody env backend args).1 with
    | .ok payload => .chatOk payload
    | .error msg => .errorResp msg name
  else if name = "list_models" then
    match listModelsBody backend args with
    | .ok res => .modelsOk res.1 res.2
    | .error msg => .errorResp msg name
  else
    .errorResp ("Unknown tool: " ++ name) name

/-- Provider string handed to `callModel` during a `chat` call, `none` when
validation rejected the request before any adapter was dispatched. -/
def chatDispatched (env : Env) (backend : Backend) (args : ChatArgs) : Option String :=
  (chatBody env backend args).2

/-- Modelled from the spec: the closed ErrorKind taxonomy of section 7,
which classifies failures by cause; the code has no such enumeration at the
envelope level, so it exists only on the specification side. -/
inductive ErrorKind where
  | InvalidRequest
  | InvalidProvider
  | InvalidModel
  | MissingCredential
  | ProviderUnavailable
  | UpstreamApiError
  | Timeout
deriving Repr, DecidableEq

/-- Modelled from the spec: section 7 assigns each failed `InvocationResult`
an ErrorKind by its cause. The code tags connection failures with its
`MODEL_UNAVAILABLE` constant (the spec's ProviderUnavailable), upstream
application failures with `API_ERROR` (UpstreamApiError), unknown providers
with `INVALID_PROVIDER` (InvalidProvider), and reuses its `INVALID_REQUEST`
constant for the two missing-credential early returns, which the spec calls
MissingCredential. -/
def specKindOfInvocation (r : InvocationResult) : Option ErrorKind :=
  if r.success then none
  else if r.errorType = some "INVALID_PROVIDER" then some .InvalidProvider
  else if r.errorType = some "MODEL_UNAVAILABLE" then some .ProviderUnavailable
  else if r.errorType = some "API_ERROR" then some .UpstreamApiError
  else if r.errorType = some "TIMEOUT" then some .Timeout
  else if r.errorType = some "INVALID_REQUEST" then
    if r.error = some "Anthropic API key not configured"
        || r.error = some "OpenAI API key not configured" then
      some .MissingCredential
    else some .InvalidRequest
  else none

/-!  Concrete fixtures for witnesses and counterexamples  -/

/-- Environment with no cloud credentials configured. -/
def envNone : Env := {}

/-- Environment with only the OpenAI credential configured. -/
def envOpenAI : Env := { openaiApiKey := true }

/-- Environment with both cloud credentials configured. -/
def envBoth : Env := { anthropicApiKey := true, openaiApiKey := true }

/-- Backend where every call succeeds; the OpenAI response reports a
`total_tokens` that is not the sum of the two parts. -/
def backendNominal : Backend :=
  { ollamaGenerate := fun _ =>
      .ok { response := "resp", prompt_eval_count := some 1, eval_count := some 2 }
    anthropicMessages := fun _ =>
      .ok { text := "hello", input_tokens := 3, output_tokens := 4 }
    openaiCompletions := fun _ =>
      .ok { content := "4", usage := { prompt_tokens := 1, completion_tokens := 2, total_tokens := 5 } }
    ollamaTags := .ok ["llama3.2:latest"] }

/-- Backend where every network call fails; the local Ollama server is
unreachable with `ECONNREFUSED`. -/
def backendRefused : Backend :=
  { ollamaGenerate := fun _ =>
      .error { code := some "ECONNREFUSED", message := "connect ECONNREFUSED 127.0.0.1:11434" }
    anthropicMessages := fun _ => .error { message := "anthropic down" }
    openaiCompletions := fun _ => .error { message := "openai down" }
    ollamaTags := .error { message := "connect ECONNREFUSED 127.0.0.1:11434" } }

/-!  Helper lemmas  -/

/-- JS `a || b` yields `b` when `a` is falsy. -/
theorem jsOrStr_falsy {a : Option String} {b : String} (h : jsTruthyOptStr a = false) :
    jsOrStr a b = b := by
  cases a with
  | none => rfl
  | some v =>
    simp only [jsTruthyOptStr, ne_eq, decide_eq_false_iff_not, not_not] at h
    simp [jsOrStr, h]

/-- JS `a || b` yields `a`'s value when `a` is truthy. -/
theorem jsOrStr_truthy {v : String} {b : String} (h : v ≠ "") :
    jsOrStr (some v) b = v := by
  simp [jsOrStr, h]

/-- Every result of `callOllama` carries the `ollama` provider tag. -/
theorem callOllama_provider_eq (env : Env) (backend : Backend) (prompt : String)
    (model : Option String) (options : ChatOptions) :
    (callOllama env backend prompt model options).provider = some "ollama" := by
  unfold callOllama
  split <;> rfl

/-- Every result of `callClaude` carries the `claude` provider tag. -/
theorem callClaude_provider_eq (env : Env) (backend : Backend) (prompt : String)
    (model : Option String) (options : ChatOptions) :
    (callClaude env backend prompt model options).provider = some "claude" := by
  unfold callClaude
  split
  · rfl
  · split <;> rfl

/-- Every result of `callOpenAI` carries the `openai` provider tag. -/
theorem callOpenAI_provider_eq (env : Env) (backend : Backend) (prompt : String)
    (model : Option String) (options : ChatOptions) :
    (callOpenAI env backend prompt model options).provider = some "openai" := by
  unfold callOpenAI
  split
  · rfl
  · split <;> rfl

/-- `callModel` on a provider id from the known set dispatches to the
matching adapter, whose result carries exactly that provider tag. -/
theorem callModel_provider_known (env : Env) (backend : Backend) (o : String)
    (prompt : String) (model : Option String) (options : ChatOptions)
    (ho : o = "ollama" ∨ o = "claude" ∨ o = "openai") :
    (callModel env backend o prompt model options).provider = some o := by
  rcases ho with rfl | rfl | rfl
  · have h : toLowerStr "ollama" = "ollama" := by decide
    simp only [callModel, h]
    simpa using callOllama_provider_eq env backend prompt model options
  · have h : toLowerStr "claude" = "claude" := by decide
    simp only [callModel, h]
    simpa using callClaude_provider_eq env backend prompt model options
  · have h : toLowerStr "openai" = "openai" := by decide
    simp only [callModel, h]
    simpa using callOpenAI_provider_eq env backend prompt model options

/-- Evaluation of the `chat` body once the prompt is present and validation
of the selected provider succeeds: the model is called and the response or
the thrown API-error message is produced, with the dispatch recorded. -/
theorem chatBody_of_valid (env : Env) (backend : Backend) (args : ChatArgs) (o : String)
    (hp : jsTruthyOptStr args.prompt = true)
    (hsel : jsOrStr args.provider (selectModelForTask (determineTaskType (args.prompt.getD ""))) = o)
    (hval : validateModelRequest o args.model = .ok { valid := true }) :
    chatBody env backend args =
      (let result := callModel env backend o (args.prompt.getD "") args.model
         { temperature := args.temperature, maxTokens := args.maxTokens }
       if !result.success then
         (.error (jsTemplateOptStr result.provider ++ " API error: " ++ (result.error.getD "")),
          some o)
       else
         (.ok { response := result.content
                model_info :=
                  { provider := result.provider
                    model := result.model
                    task_type := determineTaskType (args.prompt.getD "")
                    auto_selected := !(jsTruthyOptStr args.provider) }
                usage := result.usage },
          some o)) := by
  unfold chatBody
  simp only [hp, hsel, hval, Bool.not_true, if_false, Bool.false_eq_true]

/-- C1: `determineTaskType` always returns exactly one of the four task
types, decided by case-insensitive substring matching in fixed priority
order: coding keywords first, then creative, then analytical, and general
when no group matches; a prompt matching several groups gets the first
matching group. -/
theorem determineTaskType_priority (prompt : String) :
    (determineTaskType prompt = "coding" ∨ determineTaskType prompt = "creative" ∨
     determineTaskType prompt = "analytical" ∨ determineTaskType prompt = "general")
    ∧ (determineTaskType prompt = "coding" ↔ mentionsCoding (toLowerStr prompt) = true)
    ∧ (determineTaskType prompt = "creative" ↔
        (mentionsCoding (toLowerStr prompt) = false ∧ mentionsCreative (toLowerStr prompt) = true))
    ∧ (determineTaskType prompt = "analytical" ↔
        (mentionsCoding (toLowerStr prompt) = false ∧ mentionsCreative (toLowerStr prompt) = false
         ∧ mentionsAnalytical (toLowerStr prompt) = true))
    ∧ (determineTaskType prompt = "general" ↔
        (mentionsCoding (toLowerStr prompt) = false ∧ mentionsCreative (toLowerStr prompt) = false
         ∧ mentionsAnalytical (toLowerStr prompt) = false)) := by
  unfold determineTaskType
  rcases h1 : mentionsCoding (toLowerStr prompt) <;>
    rcases h2 : mentionsCreative (toLowerStr prompt) <;>
      rcases h3 : mentionsAnalytical (toLowerStr prompt) <;>
        simp [h1, h2, h3]

/-- C2: a valid provider override always determines the dispatched provider,
whatever the prompt's task type; without an override, dispatch follows the
routing table entry for the classified task type (creative to claude,
analytical to openai, coding and general to ollama), and any task type
absent from the routing table falls back to the default provider. -/
theorem chat_provider_selection_policy :
    (∀ (env : Env) (backend : Backend) (args : ChatArgs) (o : String),
      jsTruthyOptStr args.prompt = true →
      args.provider = some o →
      (o = "ollama" ∨ o = "claude" ∨ o = "openai") →
      validateModelRequest o args.model = .ok { valid := true } →
      chatDispatched env backend args = some o ∧
      (callModel env backend o (args.prompt.getD "") args.model
        { temperature := args.temperature, maxTokens := args.maxTokens }).provider = some o)
    ∧ (∀ (env : Env) (backend : Backend) (args : ChatArgs),
      jsTruthyOptStr args.prompt = true →
      jsTruthyOptStr args.provider = false →
      validateModelRequest (selectModelForTask (determineTaskType (args.prompt.getD "")))
          args.model = .ok { valid := true } →
      chatDispatched env backend args
        = some (selectModelForTask (determineTaskType (args.prompt.getD ""))))
    ∧ (selectModelForTask "creative" = "claude" ∧ selectModelForTask "analytical" = "openai"
       ∧ selectModelForTask "coding" = "ollama" ∧ selectModelForTask "general" = "ollama")
    ∧ (∀ t : String, modelRoutingLookup t = none → selectModelForTask t = "ollama") := by
  refine ⟨?_, ?_, ⟨by decide, by decide, by decide, by decide⟩, ?_⟩
  · intro env backend args o hp hpo ho hval
    have hne : o ≠ "" := by rcases ho with rfl | rfl | rfl <;> decide
    have hsel : jsOrStr args.provider
        (selectModelForTask (determineTaskType (args.prompt.getD ""))) = o := by
      rw [hpo]; exact jsOrStr_truthy hne
    refine ⟨?_, callModel_provider_known env backend o _ _ _ ho⟩
    unfold chatDispatched
    rw [chatBody_of_valid env backend args o hp hsel hval]
    simp only [apply_ite Prod.snd, ite_self]
  · intro env backend args hp hpf hval
    have hsel : jsOrStr args.provider
        (selectModelForTask (determineTaskType (args.prompt.getD "")))
        = selectModelForTask (determineTaskType (args.prompt.getD "")) := jsOrStr_falsy hpf
    unfold chatDispatched
    rw [chatBody_of_valid env backend args _ hp hsel hval]
    simp only [apply_ite Prod.snd, ite_self]
  · intro t h
    unfold selectModelForTask
    rw [h]
    decide

/-- C2 witness: an explicit `claude` override on a general-task prompt is
dispatched to `claude`, and an uncontrolled creative prompt routes to
`claude` through the routing table. -/
theorem chat_provider_selection_policy_witness :
    chatDispatched envBoth backendNominal { prompt := some "Hello", provider := some "claude" }
      = some "claude" ∧
    chatDispatched envBoth backendNominal { prompt := some "Write a creative story about AI" }
      = some "claude" := by
  constructor
  · exact (chat_provider_selection_policy.1 envBoth backendNominal
      { prompt := some "Hello", provider := some "claude" } "claude"
      (by decide) rfl (Or.inr (Or.inl rfl)) (by rfl)).1
  · have h := chat_provider_selection_policy.2.1 envBoth backendNominal
      { prompt := some "Write a creative story about AI" } (by decide) (by decide) (by rfl)
    rw [h]; decide

/-- C3 counterexample: the override `OLLAMA` is not in the known provider
set `{ollama, claude, openai}`, yet the chat call validates it (the check
uppercases the string first), dispatches it to the ollama adapter, and
succeeds instead of returning the invalid-provider failure. -/
theorem chat_uppercase_override_dispatched :
    ("OLLAMA" ∉ (["ollama", "claude", "openai"] : List String))
    ∧ handleToolCall envNone backendNominal "chat"
        { prompt := some "hi", provider := some "OLLAMA" }
      = .chatOk { response := some "resp"
                  model_info := { provider := some "ollama", model := some "llama3.2"
                                  task_type := "general", auto_selected := false }
                  usage := some { prompt_tokens := 1, completion_tokens := 2, total_tokens := 3 } }
    ∧ chatDispatched envNone backendNominal { prompt := some "hi", provider := some "OLLAMA" }
      = some "OLLAMA" :=
  ⟨by decide, rfl, rfl⟩

/-- C3 (amended): a chat call whose non-empty provider override is unknown
even after uppercasing (not a `MODEL_PROVIDERS` key) yields the error
envelope `Invalid provider: <override>` for every prompt, and no adapter is
dispatched. Overrides matching a known provider only up to case pass
validation and are dispatched instead. -/
theorem chat_unknown_provider_rejected (env : Env) (backend : Backend) (args : ChatArgs)
    (o : String)
    (hp : jsTruthyOptStr args.prompt = true)
    (hpo : args.provider = some o) (hne : o ≠ "")
    (hunknown : modelProvidersLookup (toUpperStr o) = none) :
    handleToolCall env backend "chat" args = .errorResp ("Invalid provider: " ++ o) "chat"
    ∧ chatDispatched env backend args = none := by
  have hsel : jsOrStr args.provider
      (selectModelForTask (determineTaskType (args.prompt.getD ""))) = o := by
    rw [hpo]; exact jsOrStr_truthy hne
  have hval : validateModelRequest o args.model
      = .ok { valid := false, error := some ("Invalid provider: " ++ o) } := by
    unfold validateModelRequest
    rw [hunknown]
    rfl
  have hbody : chatBody env backend args = (.error ("Invalid provider: " ++ o), none) := by
    unfold chatBody
    simp only [hp, hsel, hval, Bool.not_true, if_false]
    rfl
  constructor
  · unfold handleToolCall
    rw [if_pos rfl, hbody]
  · unfold chatDispatched
    rw [hbody]

/-- C3 witness: the override `bogus` is rejected with the invalid-provider
error envelope and nothing is dispatched. -/
theorem chat_unknown_provider_rejected_witness :
    handleToolCall envNone backendNominal "chat"
      { prompt := some "Hello", provider := some "bogus" }
      = .errorResp "Invalid provider: bogus" "chat"
    ∧ chatDispatched envNone backendNominal { prompt := some "Hello", provider := some "bogus" }
      = none :=
  chat_unknown_provider_rejected envNone backendNominal
    { prompt := some "Hello", provider := some "bogus" } "bogus"
    (by decide) rfl (by decide) (by decide)

/-- C4: the tool-call boundary is total — every invocation produces one of
the three envelope shapes; any error thrown inside the `chat` or
`list_models` body (including the validation TypeError and adapter
failures) is caught and converted into the error envelope carrying exactly
the thrown message; an unknown tool name also yields an error envelope. -/
theorem dispatch_boundary_total :
    (∀ (env : Env) (backend : Backend) (name : String) (args : ChatArgs),
      (∃ m, handleToolCall env backend name args = .errorResp m name)
      ∨ (∃ p, handleToolCall env backend name args = .chatOk p)
      ∨ (∃ pr ms, handleToolCall env backend name args = .modelsOk pr ms))
    ∧ (∀ (env : Env) (backend : Backend) (args : ChatArgs) (m : String),
      (chatBody env backend args).1 = .error m →
      handleToolCall env backend "chat" args = .errorResp m "chat")
    ∧ (∀ (env : Env) (backend : Backend) (args : ChatArgs) (m : String),
      listModelsBody backend args = .error m →
      handleToolCall env backend "list_models" args = .errorResp m "list_models")
    ∧ (∀ (env : Env) (backend : Backend) (name : String) (args : ChatArgs),
      name ≠ "chat" → name ≠ "list_models" →
      handleToolCall env backend name args = .errorResp ("Unknown tool: " ++ name) name) := by
  refine ⟨?_, ?_, ?_, ?_⟩
  · intro env backend name args
    unfold handleToolCall
    by_cases h1 : name = "chat"
    · subst h1
      rw [if_pos rfl]
      cases hb : (chatBody env backend args).1 with
      | ok p => exact Or.inr (Or.inl ⟨p, rfl⟩)
      | error m => exact Or.inl ⟨m, rfl⟩
    · rw [if_neg h1]
      by_cases h2 : name = "list_models"
      · subst h2
        rw [if_pos rfl]
        cases hb : listModelsBody backend args with
        | ok r => exact Or.inr (Or.inr ⟨r.1, r.2, rfl⟩)
        | error m => exact Or.inl ⟨m, rfl⟩
      · rw [if_neg h2]
        exact Or.inl ⟨_, rfl⟩
  · intro env backend args m hb
    unfold handleToolCall
    rw [if_pos rfl, hb]
  · intro env backend args m hb
    unfold handleToolCall
    rw [if_neg (by decide), if_pos rfl, hb]
  · intro env backend name args h1 h2
    unfold handleToolCall
    rw [if_neg h1, if_neg h2]

/-- C4 witness: an unknown tool name is answered with a well-formed error
envelope rather than a raised fault. -/
theorem dispatch_boundary_total_witness :
    handleToolCall envNone backendNominal "frobnicate" {}
      = .errorResp "Unknown tool: frobnicate" "frobnicate" :=
  dispatch_boundary_total.2.2.2 envNone backendNominal "frobnicate" {} (by decide) (by decide)

/-- Usage built by `callOllama` always totals the sum of its parts. -/
theorem callOllama_usage_sum (env : Env) (backend : Backend) (prompt : String)
    (model : Option String) (options : ChatOptions) (u : Usage)
    (h : (callOllama env backend prompt model options).usage = some u) :
    u.total_tokens = u.prompt_tokens + u.completion_tokens := by
  unfold callOllama at h
  split at h
  · injection h with h'
    rw [← h']
  · exact absurd h (by simp)

/-- Usage built by `callClaude` always totals the sum of its parts. -/
theorem callClaude_usage_sum (env : Env) (backend : Backend) (prompt : String)
    (model : Option String) (options : ChatOptions) (u : Usage)
    (h : (callClaude env backend prompt model options).usage = some u) :
    u.total_tokens = u.prompt_tokens + u.completion_tokens := by
  unfold callClaude at h
  split at h
  · exact absurd h (by simp)
  · split at h
    · injection h with h'
      rw [← h']
    · exact absurd h (by simp)

/-- Usage built by `callOpenAI` is copied verbatim — `total_tokens`
included — from the backend response. -/
theorem callOpenAI_usage_copied (env : Env) (backend : Backend) (prompt : String)
    (model : Option String) (options : ChatOptions) (u : Usage)
    (h : (callOpenAI env backend prompt model options).usage = some u) :
    ∃ resp, backend.openaiCompletions (openaiRequest env prompt model options) = .ok resp
      ∧ u.prompt_tokens = resp.usage.prompt_tokens
      ∧ u.completion_tokens = resp.usage.completion_tokens
      ∧ u.total_tokens = resp.usage.total_tokens := by
  unfold callOpenAI at h
  split at h
  · exact absurd h (by simp)
  · split at h
    · next resp heq =>
      injection h with h'
      exact ⟨resp, heq, by rw [← h'], by rw [← h'], by rw [← h']⟩
    · exact absurd h (by simp)

/-- A `callModel` result tagged `ollama` came from the ollama adapter. -/
theorem callModel_tagged_ollama (env : Env) (backend : Backend) (sel prompt : String)
    (model : Option String) (options : ChatOptions)
    (h : (callModel env backend sel prompt model options).provider = some "ollama") :
    callModel env backend sel prompt model options
      = callOllama env backend prompt model options := by
  by_cases h1 : toLowerStr sel = "ollama"
  · simp [callModel, h1]
  · by_cases h2 : toLowerStr sel = "claude"
    · simp [callModel, h1, h2, callClaude_provider_eq] at h
    · by_cases h3 : toLowerStr sel = "openai"
      · simp [callModel, h1, h2, h3, callOpenAI_provider_eq] at h
      · simp [callModel, h1, h2, h3] at h

/-- A `callModel` result tagged `claude` came from the claude adapter. -/
theorem callModel_tagged_claude (env : Env) (backend : Backend) (sel prompt : String)
    (model : Option String) (options : ChatOptions)
    (h : (callModel env backend sel prompt model options).provider = some "claude") :
    callModel env backend sel prompt model options
      = callClaude env backend prompt model options := by
  by_cases h1 : toLowerStr sel = "ollama"
  · simp [callModel, h1, callOllama_provider_eq] at h
  · by_cases h2 : toLowerStr sel = "claude"
    · simp [callModel, h1, h2]
    · by_cases h3 : toLowerStr sel = "openai"
      · simp [callModel, h1, h2, h3, callOpenAI_provider_eq] at h
      · simp [callModel, h1, h2, h3] at h

/-- A `callModel` result tagged `openai` came from the openai adapter. -/
theorem callModel_tagged_openai (env : Env) (backend : Backend) (sel prompt : String)
    (model : Option String) (options : ChatOptions)
    (h : (callModel env backend sel prompt model options).provider = some "openai") :
    callModel env backend sel prompt model options
      = callOpenAI env backend prompt model options := by
  by_cases h1 : toLowerStr sel = "ollama"
  · simp [callModel, h1, callOllama_provider_eq] at h
  · by_cases h2 : toLowerStr sel = "claude"
    · simp [callModel, h1, h2, callClaude_provider_eq] at h
    · by_cases h3 : toLowerStr sel = "openai"
      · simp [callModel, h1, h2, h3]
      · simp [callModel, h1, h2, h3] at h

/-- A successful `chat` envelope comes from the `chat` body succeeding. -/
theorem handleToolCall_chat_ok (env : Env) (backend : Backend) (args : ChatArgs)
    (p : ChatPayload)
    (h : handleToolCall env backend "chat" args = .chatOk p) :
    (chatBody env backend args).1 = .ok p := by
  unfold handleToolCall at h
  rw [if_pos rfl] at h
  cases hb : (chatBody env backend args).1 with
  | ok q =>
    rw [hb] at h
    injection h with h'
    rw [h']
  | error m =>
    rw [hb] at h
    exact absurd h (by simp)

/-- Inversion of a successful `chat` body: some provider was selected and
dispatched through `callModel`, the call succeeded, and every payload field
is copied from the invocation result and the dispatch metadata. -/
theorem chatBody_ok_inversion (env : Env) (backend : Backend) (args : ChatArgs)
    (q : ChatPayload)
    (h : (chatBody env backend args).1 = .ok q) :
    ∃ sel,
      (callModel env backend sel (args.prompt.getD "") args.model
        { temperature := args.temperature, maxTokens := args.maxTokens }).success = true
      ∧ q.response = (callModel env backend sel (args.prompt.getD "") args.model
          { temperature := args.temperature, maxTokens := args.maxTokens }).content
      ∧ q.model_info.provider = (callModel env backend sel (args.prompt.getD "") args.model
          { temperature := args.temperature, maxTokens := args.maxTokens }).provider
      ∧ q.model_info.model = (callModel env backend sel (args.prompt.getD "") args.model
          { temperature := args.temperature, maxTokens := args.maxTokens }).model
      ∧ q.model_info.task_type = determineTaskType (args.prompt.getD "")
      ∧ q.model_info.auto_selected = !(jsTruthyOptStr args.provider)
      ∧ q.usage = (callModel env backend sel (args.prompt.getD "") args.model
          { temperature := args.temperature, maxTokens := args.maxTokens }).usage := by
  unfold chatBody at h
  rcases hp : jsTruthyOptStr args.prompt with _ | _
  · rw [hp] at h
    exact absurd h (by simp)
  · rw [hp] at h
    simp only [Bool.not_true, if_false, Bool.false_eq_true] at h
    rcases hv : validateModelRequest
        (jsOrStr args.provider (selectModelForTask (determineTaskType (args.prompt.getD ""))))
        args.model with e | v
    · rw [hv] at h
      exact absurd h (by simp)
    · simp only [hv] at h
      rcases hvd : v.valid with _ | _
      · simp only [hvd, Bool.not_false, if_true] at h
        exact absurd h (by simp)
      · simp only [hvd, Bool.not_true, Bool.false_eq_true, if_false] at h
        rcases hs : (callModel env backend
            (jsOrStr args.provider (selectModelForTask (determineTaskType (args.prompt.getD ""))))
            (args.prompt.getD "") args.model
            { temperature := args.temperature, maxTokens := args.maxTokens }).success with _ | _
        · simp only [hs, Bool.not_false, if_true] at h
          exact absurd h (by simp)
        · simp only [hs, Bool.not_true, Bool.false_eq_true, if_false] at h
          injection h with h'
          refine ⟨jsOrStr args.provider (selectModelForTask (determineTaskType (args.prompt.getD ""))),
            hs, ?_, ?_, ?_, ?_, ?_, ?_⟩ <;> rw [← h']

/-- C5 counterexample: a chat served by the OpenAI adapter returns the
backend-reported `total_tokens` verbatim; with a backend response whose
total (5) is not the sum of its parts (1 + 2), the successful envelope
violates the claimed invariant. -/
theorem openai_usage_total_not_sum :
    handleToolCall envOpenAI backendNominal "chat"
      { prompt := some "hi", provider := some "openai" }
      = .chatOk { response := some "4"
                  model_info := { provider := some "openai", model := some "gpt-4"
                                  task_type := "general", auto_selected := false }
                  usage := some { prompt_tokens := 1, completion_tokens := 2, total_tokens := 5 } }
    ∧ (5 : Nat) ≠ 1 + 2 :=
  ⟨rfl, by decide⟩

/-- C5 (amended): a chat envelope is either the success shape or the error
shape with a message (`success == false` iff `error` is set); for every
successful envelope, if the serving adapter was ollama or claude the usage
total equals promptTokens plus completionTokens, while if it was openai all
three usage fields — total included — are copied verbatim from the backend
response, so the sum invariant holds exactly when the backend reports a
consistent total. Token counts are naturals, hence non-negative. -/
theorem chat_usage_invariant_amended (env : Env) (backend : Backend) (args : ChatArgs)
    (p : ChatPayload) (u : Usage)
    (hok : handleToolCall env backend "chat" args = .chatOk p)
    (hu : p.usage = some u) :
    ((p.model_info.provider = some "ollama" ∨ p.model_info.provider = some "claude") →
      u.total_tokens = u.prompt_tokens + u.completion_tokens)
    ∧ (p.model_info.provider = some "openai" →
      ∃ resp, backend.openaiCompletions (openaiRequest env (args.prompt.getD "") args.model
          { temperature := args.temperature, maxTokens := args.maxTokens }) = .ok resp
        ∧ u.prompt_tokens = resp.usage.prompt_tokens
        ∧ u.completion_tokens = resp.usage.completion_tokens
        ∧ u.total_tokens = resp.usage.total_tokens) := by
  obtain ⟨sel, _, _, hprov, _, _, _, husage⟩ :=
    chatBody_ok_inversion env backend args p (handleToolCall_chat_ok env backend args p hok)
  constructor
  · rintro (hpr | hpr)
    · have hadapter := callModel_tagged_ollama env backend sel (args.prompt.getD "")
        args.model { temperature := args.temperature, maxTokens := args.maxTokens }
        (by rw [← hprov, hpr])
      exact callOllama_usage_sum env backend (args.prompt.getD "") args.model
        { temperature := args.temperature, maxTokens := args.maxTokens } u
        (by rw [← hadapter, ← husage, hu])
    · have hadapter := callModel_tagged_claude env backend sel (args.prompt.getD "")
        args.model { temperature := args.temperature, maxTokens := args.maxTokens }
        (by rw [← hprov, hpr])
      exact callClaude_usage_sum env backend (args.prompt.getD "") args.model
        { temperature := args.temperature, maxTokens := args.maxTokens } u
        (by rw [← hadapter, ← husage, hu])
  · intro hpr
    have hadapter := callModel_tagged_openai env backend sel (args.prompt.getD "")
      args.model { temperature := args.temperature, maxTokens := args.maxTokens }
      (by rw [← hprov, hpr])
    exact callOpenAI_usage_copied env backend (args.prompt.getD "") args.model
      { temperature := args.temperature, maxTokens := args.maxTokens } u
      (by rw [← hadapter, ← husage, hu])

/-- C5 witness: a chat served by the ollama adapter yields a usage object
whose total is the sum of its parts. -/
theorem chat_usage_invariant_amended_witness :
    ∃ p u, handleToolCall envBoth backendNominal "chat"
        { prompt := some "hi", provider := some "ollama" } = .chatOk p
      ∧ p.usage = some u
      ∧ u.total_tokens = u.prompt_tokens + u.completion_tokens := by
  refine ⟨{ response := some "resp"
            model_info := { provider := some "ollama", model := some "llama3.2"
                            task_type := "general", auto_selected := false }
            usage := some { prompt_tokens := 1, completion_tokens := 2, total_tokens := 3 } },
    { prompt_tokens := 1, completion_tokens := 2, total_tokens := 3 }, rfl, rfl, ?_⟩
  exact (chat_usage_invariant_amended envBoth backendNominal
    { prompt := some "hi", provider := some "ollama" } _ _ rfl rfl).1 (Or.inl rfl)

/-- C6: when the local Ollama backend refuses the connection
(`ECONNREFUSED`), a chat overridden or routed to ollama fails without
raising: the adapter result is unsuccessful and tagged with the code's
`MODEL_UNAVAILABLE` error type — the spec's ProviderUnavailable kind — and
the caller receives the error envelope. -/
theorem ollama_unreachable_surfaces (env : Env) (backend : Backend) (args : ChatArgs)
    (msg : String)
    (hp : jsTruthyOptStr args.prompt = true)
    (hov : args.provider = some "ollama"
      ∨ (jsTruthyOptStr args.provider = false
         ∧ selectModelForTask (determineTaskType (args.prompt.getD "")) = "ollama"))
    (hval : validateModelRequest "ollama" args.model = .ok { valid := true })
    (hnet : backend.ollamaGenerate (ollamaRequest env (args.prompt.getD "") args.model
        { temperature := args.temperature, maxTokens := args.maxTokens })
      = .error { code := some "ECONNREFUSED", message := msg }) :
    (callOllama env backend (args.prompt.getD "") args.model
        { temperature := args.temperature, maxTokens := args.maxTokens }).success = false
    ∧ (callOllama env backend (args.prompt.getD "") args.model
        { temperature := args.temperature, maxTokens := args.maxTokens }).errorType
      = some "MODEL_UNAVAILABLE"
    ∧ specKindOfInvocation (callOllama env backend (args.prompt.getD "") args.model
        { temperature := args.temperature, maxTokens := args.maxTokens })
      = some ErrorKind.ProviderUnavailable
    ∧ handleToolCall env backend "chat" args
      = .errorResp ("ollama API error: " ++ msg) "chat" := by
  have hres : callOllama env backend (args.prompt.getD "") args.model
      { temperature := args.temperature, maxTokens := args.maxTokens }
      = { success := false, error := some msg, errorType := some "MODEL_UNAVAILABLE"
          provider := some "ollama" } := by
    unfold callOllama
    rw [hnet]
    rfl
  have hsel : jsOrStr args.provider
      (selectModelForTask (determineTaskType (args.prompt.getD ""))) = "ollama" := by
    rcases hov with hpo | ⟨hpf, hroute⟩
    · rw [hpo]; exact jsOrStr_truthy (by decide)
    · rw [jsOrStr_falsy hpf, hroute]
  have hcm : callModel env backend "ollama" (args.prompt.getD "") args.model
      { temperature := args.temperature, maxTokens := args.maxTokens }
      = callOllama env backend (args.prompt.getD "") args.model
        { temperature := args.temperature, maxTokens := args.maxTokens } := by
    have hl : toLowerStr "ollama" = "ollama" := by decide
    simp [callModel, hl]
  refine ⟨by rw [hres], by rw [hres], by rw [hres]; rfl, ?_⟩
  have hbody := chatBody_of_valid env backend args "ollama" hp hsel hval
  rw [hcm, hres] at hbody
  unfold handleToolCall
  rw [if_pos rfl, hbody]
  rfl

/-- C6 witness: with the local backend down, an ollama-overridden chat
returns the unavailable-provider failure as an error envelope. -/
theorem ollama_unreachable_surfaces_witness :
    specKindOfInvocation (callOllama envNone backendRefused "What is 2+2?" none {})
      = some ErrorKind.ProviderUnavailable
    ∧ handleToolCall envNone backendRefused "chat"
        { prompt := some "What is 2+2?", provider := some "ollama" }
      = .errorResp "ollama API error: connect ECONNREFUSED 127.0.0.1:11434" "chat" := by
  have h := ollama_unreachable_surfaces envNone backendRefused
    { prompt := some "What is 2+2?", provider := some "ollama" }
    "connect ECONNREFUSED 127.0.0.1:11434"
    (by decide) (Or.inl rfl) rfl rfl
  exact ⟨h.2.2.1, h.2.2.2⟩

/-- C7: a chat directed at a cloud provider whose credential is not
configured fails without crashing: the adapter returns the
missing-credential failure (which the code tags with its `INVALID_REQUEST`
constant; the spec's MissingCredential kind by cause) and the caller
receives the error envelope. -/
theorem missing_credential_surfaces :
    (∀ (env : Env) (backend : Backend) (args : ChatArgs),
      jsTruthyOptStr args.prompt = true →
      args.provider = some "claude" →
      env.anthropicApiKey = false →
      validateModelRequest "claude" args.model = .ok { valid := true } →
      (callClaude env backend (args.prompt.getD "") args.model
          { temperature := args.temperature, maxTokens := args.maxTokens }).success = false
      ∧ (callClaude env backend (args.prompt.getD "") args.model
          { temperature := args.temperature, maxTokens := args.maxTokens }).error
        = some "Anthropic API key not configured"
      ∧ specKindOfInvocation (callClaude env backend (args.prompt.getD "") args.model
          { temperature := args.temperature, maxTokens := args.maxTokens })
        = some ErrorKind.MissingCredential
      ∧ handleToolCall env backend "chat" args
        = .errorResp "claude API error: Anthropic API key not configured" "chat")
    ∧ (∀ (env : Env) (backend : Backend) (args : ChatArgs),
      jsTruthyOptStr args.prompt = true →
      args.provider = some "openai" →
      env.openaiApiKey = false →
      validateModelRequest "openai" args.model = .ok { valid := true } →
      (callOpenAI env backend (args.prompt.getD "") args.model
          { temperature := args.temperature, maxTokens := args.maxTokens }).success = false
      ∧ (callOpenAI env backend (args.prompt.getD "") args.model
          { temperature := args.temperature, maxTokens := args.maxTokens }).error
        = some "OpenAI API key not configured"
      ∧ specKindOfInvocation (callOpenAI env backend (args.prompt.getD "") args.model
          { temperature := args.temperature, maxTokens := args.maxTokens })
        = some ErrorKind.MissingCredential
      ∧ handleToolCall env backend "chat" args
        = .errorResp "openai API error: OpenAI API key not configured" "chat") := by
  constructor
  · intro env backend args hp hpo hkey hval
    have hres : callClaude env backend (args.prompt.getD "") args.model
        { temperature := args.temperature, maxTokens := args.maxTokens }
        = { success := false, error := some "Anthropic API key not configured"
            errorType := some "INVALID_REQUEST", provider := some "claude" } := by
      unfold callClaude
      rw [hkey]
      rfl
    have hsel : jsOrStr args.provider
        (selectModelForTask (determineTaskType (args.prompt.getD ""))) = "claude" := by
      rw [hpo]; exact jsOrStr_truthy (by decide)
    have hcm : callModel env backend "claude" (args.prompt.getD "") args.model
        { temperature := args.temperature, maxTokens := args.maxTokens }
        = callClaude env backend (args.prompt.getD "") args.model
          { temperature := args.temperature, maxTokens := args.maxTokens } := by
      have hl : toLowerStr "claude" = "claude" := by decide
      simp [callModel, hl]
    refine ⟨by rw [hres], by rw [hres], by rw [hres]; rfl, ?_⟩
    have hbody := chatBody_of_valid env backend args "claude" hp hsel hval
    rw [hcm, hres] at hbody
    unfold handleToolCall
    rw [if_pos rfl, hbody]
    rfl
  · intro env backend args hp hpo hkey hval
    have hres : callOpenAI env backend (args.prompt.getD "") args.model
        { temperature := args.temperature, maxTokens := args.maxTokens }
        = { success := false, error := some "OpenAI API key not configured"
            errorType := some "INVALID_REQUEST", provider := some "openai" } := by
      unfold callOpenAI
      rw [hkey]
      rfl
    have hsel : jsOrStr args.provider
        (selectModelForTask (determineTaskType (args.prompt.getD ""))) = "openai" := by
      rw [hpo]; exact jsOrStr_truthy (by decide)
    have hcm : callModel env backend "openai" (args.prompt.getD "") args.model
        { temperature := args.temperature, maxTokens := args.maxTokens }
        = callOpenAI env backend (args.prompt.getD "") args.model
          { temperature := args.temperature, maxTokens := args.maxTokens } := by
      have hl : toLowerStr "openai" = "openai" := by decide
      simp [callModel, hl]
    refine ⟨by rw [hres], by rw [hres], by rw [hres]; rfl, ?_⟩
    have hbody := chatBody_of_valid env backend args "openai" hp hsel hval
    rw [hcm, hres] at hbody
    unfold handleToolCall
    rw [if_pos rfl, hbody]
    rfl

/-- C7 witness: with no credentials configured, chats directed at either
cloud provider surface the missing-credential failure as error envelopes. -/
theorem missing_credential_surfaces_witness :
    handleToolCall envNone backendNominal "chat" { prompt := some "hi", provider := some "claude" }
      = .errorResp "claude API error: Anthropic API key not configured" "chat"
    ∧ handleToolCall envNone backendNominal "chat" { prompt := some "hi", provider := some "openai" }
      = .errorResp "openai API error: OpenAI API key not configured" "chat" :=
  ⟨(missing_credential_surfaces.1 envNone backendNominal
      { prompt := some "hi", provider := some "claude" } (by decide) rfl rfl rfl).2.2.2,
   (missing_credential_surfaces.2 envNone backendNominal
      { prompt := some "hi", provider := some "openai" } (by decide) rfl rfl rfl).2.2.2⟩

/-- C8: every successful chat envelope's `auto_selected` flag is the JS
negation of the supplied provider override — true exactly when no (truthy)
override was given. -/
theorem auto_selected_negates_override (env : Env) (backend : Backend) (args : ChatArgs)
    (p : ChatPayload)
    (h : handleToolCall env backend "chat" args = .chatOk p) :
    p.model_info.auto_selected = !(jsTruthyOptStr args.provider) := by
  obtain ⟨sel, _, _, _, _, _, hauto, _⟩ :=
    chatBody_ok_inversion env backend args p (handleToolCall_chat_ok env backend args p h)
  exact hauto

/-- C8 witness: with an explicit override the flag is false; without one it
is true. -/
theorem auto_selected_negates_override_witness :
    (∃ p, handleToolCall envBoth backendNominal "chat"
        { prompt := some "hi", provider := some "ollama" } = .chatOk p
      ∧ p.model_info.auto_selected = false)
    ∧ (∃ p, handleToolCall envBoth backendNominal "chat" { prompt := some "hi" } = .chatOk p
      ∧ p.model_info.auto_selected = true) := by
  constructor
  · refine ⟨_, rfl, ?_⟩
    have h := auto_selected_negates_override envBoth backendNominal
      { prompt := some "hi", provider := some "ollama" } _ rfl
    rw [h]; decide
  · refine ⟨_, rfl, ?_⟩
    have h := auto_selected_negates_override envBoth backendNominal
      { prompt := some "hi" } _ rfl
    rw [h]; decide

/-- C9: an explicit per-call `temperature` of `0` — a valid value per the
tool schema — is discarded by every adapter's `options.temperature ||
default`, which sends the configured default `0.7` instead; non-zero
temperatures and positive `maxTokens` do override the defaults. -/
theorem temperature_zero_falls_back :
    (ollamaRequest envNone "Count from 1 to 3" none { temperature := some 0 }).temperature
      = defaultTemperature
    ∧ (claudeRequest envNone "Count from 1 to 3" none { temperature := some 0 }).temperature
      = defaultTemperature
    ∧ (openaiRequest envNone "Count from 1 to 3" none { temperature := some 0 }).temperature
      = defaultTemperature
    ∧ defaultTemperature ≠ 0
    ∧ (ollamaRequest envNone "Count from 1 to 3" none
        { temperature := some (1 / 10), maxTokens := some 50 }).temperature = 1 / 10
    ∧ (ollamaRequest envNone "Count from 1 to 3" none { maxTokens := some 50 }).num_predict = 50 := by
  refine ⟨rfl, rfl, rfl, by norm_num [defaultTemperature], ?_, rfl⟩
  norm_num [ollamaRequest, jsOrRat]

/-- C10 counterexample: `validateModelRequest` is not total — for the
provider string `OLLAMA` (valid only up to case) together with a model, the
provider check passes but `AVAILABLE_MODELS["OLLAMA"]` is undefined, and the
membership check throws a TypeError. -/
theorem validateModelRequest_raises_on_case_mismatch :
    validateModelRequest "OLLAMA" (some "llama3.2")
      = .error "TypeError: Cannot read properties of undefined (reading includes)"
    ∧ modelProvidersLookup (toUpperStr "OLLAMA") = some "ollama"
    ∧ availableModelsLookup "OLLAMA" = none :=
  ⟨rfl, by decide, by decide⟩

/-- C10 (amended): `validateModelRequest` returns a `{valid, error?}` object
without raising for every provider and model, except exactly when the
provider is accepted only after uppercasing (so `AVAILABLE_MODELS` has no
entry for the raw string) and a truthy model is supplied — then the
model-membership check throws. -/
theorem validateModelRequest_total_characterization (provider : String) (model : Option String) :
    (∃ e, validateModelRequest provider model = .error e)
    ↔ ((modelProvidersLookup (toUpperStr provider)).isSome = true
       ∧ availableModelsLookup provider = none
       ∧ jsTruthyOptStr model = true) := by
  unfold validateModelRequest
  rcases hk : modelProvidersLookup (toUpperStr provider) with _ | v
  · simp
  · simp only [Option.isNone_some, Bool.false_eq_true, if_false, Option.isSome_some, true_and]
    rcases ha : availableModelsLookup provider with _ | ms
    · rcases hm : jsTruthyOptStr model with _ | _
      · simp
      · simp
    · simp only [reduceCtorEq, false_and, iff_false]
      rintro ⟨e, he⟩
      split at he <;> exact absurd he (by simp)
